import Mathlib

/-
Verification of the Ollama-FastAPI bridge (src/app.py) against its
natural-language specification.

The embedding models the pure request/response logic of the program:
  - JSON values and the strict-mode JSON parsing performed by
    `json.loads` / `resp.json()` (numbers are modelled as integers;
    float literals, `NaN` and `Infinity` are outside the model, as is
    surrogate-pair recombination in `\u` escapes),
  - Python `str.splitlines`, `str.strip`, truthiness and `str()`,
  - the response normalizer and error taxonomy of `call_ollama`,
  - the request handler `forward_to_ollama`, with the network modelled
    as an explicit upstream outcome passed to the handler.
-/

/-- JSON values as produced by `json.loads`. Numbers are restricted to
integers (the repository never relies on float payload values). -/
inductive Json where
  | null : Json
  | bool (b : Bool) : Json
  | num (n : Int) : Json
  | str (s : String) : Json
  | arr (elems : List Json) : Json
  | obj (fields : List (String × Json)) : Json

/-- Python truthiness of a decoded JSON value (`if obj:` semantics):
`None`, `False`, `0`, `""`, `[]` and `{}` are falsy. -/
def Json.truthy : Json → Bool
  | .null => false
  | .bool b => b
  | .num n => n != 0
  | .str s => s != ""
  | .arr elems => !elems.isEmpty
  | .obj fields => !fields.isEmpty

mutual

/-- Python `repr` of a decoded JSON value (used by `str()` on
containers). String escaping inside `repr` is not modelled beyond
quoting; the repository never reprs strings containing quotes. -/
def Json.pyRepr : Json → String
  | .null => "None"
  | .bool true => "True"
  | .bool false => "False"
  | .num n => toString n
  | .str s => "'" ++ s ++ "'"
  | .arr elems => "[" ++ Json.pyReprElems elems ++ "]"
  | .obj fields => "\x7b" ++ Json.pyReprFields fields ++ "\x7d"

/-- Comma-separated `repr` of list elements. -/
def Json.pyReprElems : List Json → String
  | [] => ""
  | [x] => Json.pyRepr x
  | x :: xs => Json.pyRepr x ++ ", " ++ Json.pyReprElems xs

/-- Comma-separated `repr` of dict entries. -/
def Json.pyReprFields : List (String × Json) → String
  | [] => ""
  | [(k, v)] => "'" ++ k ++ "': " ++ Json.pyRepr v
  | (k, v) :: kvs => "'" ++ k ++ "': " ++ Json.pyRepr v ++ ", " ++ Json.pyReprFields kvs

end

/-- Python `str()` of a decoded JSON value, as used by
`str(obj['response'])` in app.py lines 109/111. -/
def Json.pyToString : Json → String
  | .str s => s
  | v => v.pyRepr

/-- Key lookup in a decoded JSON object (`d['k']` / `'k' in d`).
Non-objects have no keys. -/
def Json.lookupKey : Json → String → Option Json
  | .obj fields, k => List.lookup k fields
  | _, _ => none

/-! ## Strict-mode JSON parsing (`json.loads`) -/

/-- JSON whitespace accepted between tokens by `json.loads`. -/
def isJsonWs (c : Char) : Bool :=
  c = ' ' || c = '\t' || c = '\n' || c = '\r'

/-- Drop leading JSON whitespace. -/
def skipWs : List Char → List Char
  | [] => []
  | c :: cs => if isJsonWs c then skipWs cs else c :: cs

/-- Value of a hex digit, if any. -/
def hexVal? (c : Char) : Option Nat :=
  if '0' ≤ c ∧ c ≤ '9' then some (c.toNat - 48)
  else if 'a' ≤ c ∧ c ≤ 'f' then some (c.toNat - 87)
  else if 'A' ≤ c ∧ c ≤ 'F' then some (c.toNat - 55)
  else none

/-- Single-character JSON string escapes. -/
def escChar? : Char → Option Char
  | '"' => some '"'
  | '\\' => some '\\'
  | '/' => some '/'
  | 'b' => some '\x08'
  | 'f' => some '\x0c'
  | 'n' => some '\n'
  | 'r' => some '\r'
  | 't' => some '\t'
  | _ => none

/-- Parse the body of a JSON string literal after the opening quote.
Strict mode: raw control characters below 0x20 are rejected. -/
def parseStringBody : List Char → List Char → Option (String × List Char)
  | _, [] => none
  | acc, c :: cs =>
    if c = '"' then some (String.mk acc.reverse, cs)
    else if c = '\\' then
      match cs with
      | [] => none
      | 'u' :: h1 :: h2 :: h3 :: h4 :: cs' =>
        match hexVal? h1, hexVal? h2, hexVal? h3, hexVal? h4 with
        | some a, some b, some c2, some d =>
          parseStringBody (Char.ofNat (((a * 16 + b) * 16 + c2) * 16 + d) :: acc) cs'
        | _, _, _, _ => none
      | e :: cs' =>
        match escChar? e with
        | some ec => parseStringBody (ec :: acc) cs'
        | none => none
    else if c.toNat < 32 then none
    else parseStringBody (c :: acc) cs

/-- Decimal digits to a natural number. -/
def digitsToNat (ds : List Char) : Nat :=
  ds.foldl (fun n c => n * 10 + (c.toNat - 48)) 0

/-- Parse a JSON number. Integer literals only: a fractional part or an
exponent makes the parse fail in this model (floats are out of scope);
leading zeros are rejected as in strict JSON. -/
def parseNumber (cs : List Char) : Option (Json × List Char) :=
  let stripped := match cs with
    | '-' :: rest => (true, rest)
    | _ => (false, cs)
  let ds := stripped.2.takeWhile Char.isDigit
  let rest := stripped.2.dropWhile Char.isDigit
  if ds.isEmpty then none
  else if ds.head? = some '0' ∧ ds.length > 1 then none
  else match rest with
    | '.' :: _ => none
    | 'e' :: _ => none
    | 'E' :: _ => none
    | _ =>
      let n : Int := Int.ofNat (digitsToNat ds)
      some (Json.num (if stripped.1 then -n else n), rest)

/-- Insert a key/value pair into a decoded object, overriding the value
in place when the key is already present (Python dict semantics for
duplicate keys in a JSON document: last value wins, first position kept). -/
def insertKV : List (String × Json) → String → Json → List (String × Json)
  | [], k, v => [(k, v)]
  | (k0, v0) :: rest, k, v =>
    if k0 = k then (k0, v) :: rest else (k0, v0) :: insertKV rest k v

mutual

/-- Fuel-indexed recursive-descent parser for one JSON value, returning
the remaining input. -/
def parseVal : Nat → List Char → Option (Json × List Char)
  | 0, _ => none
  | fuel + 1, cs =>
    match skipWs cs with
    | [] => none
    | 't' :: 'r' :: 'u' :: 'e' :: rest => some (Json.bool true, rest)
    | 'f' :: 'a' :: 'l' :: 's' :: 'e' :: rest => some (Json.bool false, rest)
    | 'n' :: 'u' :: 'l' :: 'l' :: rest => some (Json.null, rest)
    | '"' :: rest =>
      match parseStringBody [] rest with
      | some (s, rest') => some (Json.str s, rest')
      | none => none
    | '[' :: rest =>
      (match skipWs rest with
       | ']' :: rest' => some (Json.arr [], rest')
       | _ => parseElems fuel rest [])
    | '\x7b' :: rest =>
      (match skipWs rest with
       | '\x7d' :: rest' => some (Json.obj [], rest')
       | _ => parseMembers fuel rest [])
    | c :: rest =>
      if c = '-' ∨ c.isDigit then parseNumber (c :: rest) else none

/-- Parse the elements of a non-empty JSON array. -/
def parseElems : Nat → List Char → List Json → Option (Json × List Char)
  | 0, _, _ => none
  | fuel + 1, cs, acc =>
    match parseVal fuel cs with
    | none => none
    | some (v, rest) =>
      match skipWs rest with
      | ',' :: rest' => parseElems fuel rest' (acc ++ [v])
      | ']' :: rest' => some (Json.arr (acc ++ [v]), rest')
      | _ => none

/-- Parse the members of a non-empty JSON object. -/
def parseMembers : Nat → List Char → List (String × Json) → Option (Json × List Char)
  | 0, _, _ => none
  | fuel + 1, cs, acc =>
    match skipWs cs with
    | '"' :: rest =>
      (match parseStringBody [] rest with
       | none => none
       | some (k, rest1) =>
         match skipWs rest1 with
         | ':' :: rest2 =>
           (match parseVal fuel rest2 with
            | none => none
            | some (v, rest3) =>
              match skipWs rest3 with
              | ',' :: rest4 => parseMembers fuel rest4 (insertKV acc k v)
              | '\x7d' :: rest4 => some (Json.obj (insertKV acc k v), rest4)
              | _ => none)
         | _ => none)
    | _ => none

end

/-- `json.loads` on a whole string: one JSON document, possibly
surrounded by JSON whitespace, with nothing after it. Returns `none`
where CPython raises `JSONDecodeError`. -/
def parseJson (s : String) : Option Json :=
  match parseVal (s.length + 2) s.data with
  | some (v, rest) =>
    (match skipWs rest with
     | [] => some v
     | _ => none)
  | none => none

/-! ## Python string primitives used by the normalizer -/

/-- Line-boundary characters of Python `str.splitlines`. -/
def isLineBreakChar (c : Char) : Bool :=
  c = '\n' || c = '\r' || c = '\x0b' || c = '\x0c' ||
  c = '\x1c' || c = '\x1d' || c = '\x1e' || c = '\x85' ||
  c = '\u2028' || c = '\u2029'

/-- Worker for `pySplitlines`; `acc` holds the current line reversed. -/
def pySplitlinesAux : List Char → List Char → List String
  | acc, [] => if acc.isEmpty then [] else [String.mk acc.reverse]
  | acc, '\r' :: '\n' :: cs => String.mk acc.reverse :: pySplitlinesAux [] cs
  | acc, c :: cs =>
    if isLineBreakChar c then String.mk acc.reverse :: pySplitlinesAux [] cs
    else pySplitlinesAux (c :: acc) cs

/-- Python `str.splitlines`: splits at line boundaries (`\r\n` counts
as one boundary); a trailing boundary does not produce an empty final
line and the empty string yields no lines. -/
def pySplitlines (s : String) : List String :=
  pySplitlinesAux [] s.data

/-- Characters removed by Python `str.strip()` with no argument
(ASCII whitespace; exotic Unicode space stripping is not modelled). -/
def isPySpaceChar (c : Char) : Bool :=
  c = ' ' || c = '\t' || c = '\n' || c = '\r' || c = '\x0b' || c = '\x0c'

/-- Python `str.strip()`. -/
def pyStrip (s : String) : String :=
  String.mk (((s.data.dropWhile isPySpaceChar).reverse.dropWhile isPySpaceChar).reverse)

/-- app.py line 99: `lines = [l.strip() for l in text.splitlines() if l.strip()]`
— the non-empty stripped lines of the upstream body. -/
def procLines (text : String) : List String :=
  ((pySplitlines text).map pyStrip).filter (fun l => l ≠ "")

/-! ## Response normalization (app.py lines 97-126) -/

/-- Loop state of the NDJSON collection loop (app.py lines 101-114):
the accumulated strings and the last successfully parsed object. -/
structure CollectSt where
  collected : List String
  last_obj : Option Json

/-- The string a successfully parsed line contributes to the
accumulator, mirroring app.py lines 108-111: the `response` field when
present and truthy, else the `text` field when present and truthy,
else nothing; non-dict values contribute nothing. -/
def fieldContribution : Json → Option String
  | .obj fields =>
    (match List.lookup "response" fields with
     | some r =>
       if r.truthy then some r.pyToString
       else
         (match List.lookup "text" fields with
          | some t => if t.truthy then some t.pyToString else none
          | none => none)
     | none =>
       match List.lookup "text" fields with
       | some t => if t.truthy then some t.pyToString else none
       | none => none)
  | _ => none

/-- One iteration of the NDJSON loop (app.py lines 103-114): a line
that fails to parse is skipped; a parsed line becomes the new
`last_obj` and may contribute a string to `collected`. -/
def collectStep (st : CollectSt) (line : String) : CollectSt :=
  match parseJson line with
  | none => st
  | some obj =>
    match fieldContribution obj with
    | some s => { collected := st.collected ++ [s], last_obj := some obj }
    | none => { st with last_obj := some obj }

/-- Response normalization of `call_ollama` (app.py lines 97-126):
more than one non-empty stripped line → NDJSON aggregation (`last`
attached only when the final parsed object is truthy); otherwise
whole-body JSON pass-through, degrading to `{"text": body}`. -/
def normalizeBody (body : String) : Json :=
  let lines := procLines body
  if lines.length > 1 then
    let st := lines.foldl collectStep ⟨[], none⟩
    let joined := String.join st.collected
    let base := [("text", Json.str joined), ("raw_lines", Json.arr (lines.map Json.str))]
    match st.last_obj with
    | some v => if v.truthy then Json.obj (base ++ [("last", v)]) else Json.obj base
    | none => Json.obj base
  else
    match parseJson body with
    | some parsed => parsed
    | none => Json.obj [("text", Json.str body)]

/-! ## Outbound call (app.py lines 74-95) -/

/-- Observable outcome of the outbound HTTP POST to the upstream
service: connection refusal (`httpx.ConnectError`), another
transport-level error (`httpx.RequestError`), or an HTTP response with
a status code and a body text. -/
inductive UpstreamOutcome where
  | connectError : UpstreamOutcome
  | requestError (msg : String) : UpstreamOutcome
  | response (status : Nat) (body : String) : UpstreamOutcome

/-- A raised `HTTPException`: status code and `detail` payload. -/
structure HttpError where
  status : Nat
  detail : Json

/-- Result of `call_ollama`: a raised `HTTPException` or a normalized
result returned to the handler. -/
inductive CallResult where
  | err (e : HttpError) : CallResult
  | ok (result : Json) : CallResult

/-- app.py lines 90-94: the data embedded in the 502 detail for a
non-200 upstream status — the body parsed as JSON when possible,
otherwise the raw status code and text. -/
def errorData (status : Nat) (body : String) : Json :=
  match parseJson body with
  | some data => data
  | none => Json.obj [("status_code", Json.num (Int.ofNat status)), ("text", Json.str body)]

/-- `call_ollama` (app.py lines 74-126) over an explicit upstream
outcome. The payload does not influence the outcome of the network
call; the parameter mirrors the call signature. -/
def call_ollama (url : String) (_payload : List (String × Json))
    (outcome : UpstreamOutcome) : CallResult :=
  match outcome with
  | .connectError =>
    .err ⟨503, Json.str ("Cannot connect to Ollama at " ++ url ++ ". Is Ollama running?")⟩
  | .requestError msg =>
    .err ⟨502, Json.str ("Ollama request error: " ++ msg)⟩
  | .response status body =>
    if status ≠ 200 then
      .err ⟨502, Json.obj [("ollama_response", errorData status body)]⟩
    else
      .ok (normalizeBody body)

/-! ## Incoming request and handler (app.py lines 13-20, 129-180) -/

/-- The validated `OllamaRequest` pydantic model (app.py lines 13-20).
`temperature` is declared but never read downstream; its float value is
irrelevant to every code path, so it is abstracted to an optional
integer placeholder here. -/
structure OllamaRequest where
  prompt : Option String := none
  model : Option String := some "gemma3:270m"
  max_tokens : Option Int := some 512
  temperature : Option Int := some 1
  messages : Option (List (List (String × Json))) := none

/-- Python truthiness of an optional string (`if req.prompt:`). -/
def pyTruthyStr : Option String → Bool
  | none => false
  | some s => s != ""

/-- Python truthiness of an optional list (`if req.messages:`). -/
def pyTruthyList {a : Type} : Option (List a) → Bool
  | none => false
  | some xs => !xs.isEmpty

/-- Python truthiness of an optional integer (`if req.max_tokens:`). -/
def pyTruthyInt : Option Int → Bool
  | none => false
  | some n => n != 0

/-- Rendering of an optional string inside an f-string
(`f"...{req.prompt}..."`). -/
def pyInterpolate : Option String → String
  | none => "None"
  | some s => s

/-- JSON encoding of an optional string payload field. -/
def optStrJson : Option String → Json
  | none => Json.null
  | some s => Json.str s

/-- JSON encoding of the verbatim chat messages list. -/
def msgsJson (ms : List (List (String × Json))) : Json :=
  Json.arr (ms.map Json.obj)

/-- `WEBSITE_CONTEXT` (app.py lines 23-55): the static context block
embedded in the instructional template. -/
def WEBSITE_CONTEXT : String := "
KEY FACTS ABOUT LINDOKUHLE:

Education:
• Currently a First Year ICT Student at Durban University of Technology
• Focus on Information Technology and Software Development

Programming Skills:
• Front-End Development: HTML and CSS
• Programming Languages: Learning C++
• Development Approach: Full-stack development aspirant
• Learning Style: Multi-language parallel learning approach

Professional Goals:
• Aspiring Full-Stack Developer
• Interested in Cybersecurity and System Protection
• Focused on understanding app development and system architecture

Unique Attributes:
• Uses innovative stress management technique: switching between programming languages
• Learning strategy: Treats web development as a continuous journey
• Problem-solving approach: When faced with challenges in one language, temporarily switches to another
• Motivation: Driven by curiosity about how applications work and systems are protected

Career Interests:
• Web Development (Both Front-end and Back-end)
• Software Development
• Cybersecurity
• System Protection and Security

Learning Philosophy:
\"For me, my curiosity drives my passion and my passion determines my dream. When one language becomes challenging, I switch to another as a stress relief technique, making the learning journey more manageable.\"
"

/-- The instructional template of app.py lines 142-166 before the
`WEBSITE_CONTEXT` interpolation point. -/
def PROMPT_TEMPLATE_HEAD : String := "You are an AI assistant for Lindokuhle's portfolio. Your primary goal is to answer questions based on the provided context. Follow these rules precisely:

1. GREETING RULE:
   - IF the user's question is a simple greeting (e.g., \"hi\", \"hello\", \"hey\"), THEN respond with:
     \"Hi! I'm Lindokuhle's AI assistant. I can tell you about Lindokuhle's programming skills, education at DUT, and journey in technology. What would you like to know?\"
   - DO NOT use the greeting for specific questions.

2. QUESTION-ANSWERING RULE:
   - FOR ALL OTHER questions, provide a direct and specific answer based on the context below.
   - Start your response by directly addressing the user's question. For example, if asked \"How does Lindokuhle handle challenges?\", start with \"Lindokuhle handles programming challenges by...\".

3. CONTEXT-ONLY RULE:
   - You MUST base all answers on the following `KEY FACTS`:
"

/-- The instructional template between the `WEBSITE_CONTEXT` and
`req.prompt` interpolation points. -/
def PROMPT_TEMPLATE_MID : String := "
   - If the information is not in the context, politely state that and offer to answer a question you *can* answer (e.g., \"While I don't have information on that, I can tell you about Lindokuhle's programming skills.\").

4. TOPIC-SPECIFIC GUIDANCE:
   - For questions about \"Programming Skills,\" focus on HTML, CSS, C++, and the multi-language learning approach.
   - For questions about \"Learning Style,\" explain the unique stress management technique of switching between languages.
   - For questions about \"Education,\" mention the ICT program at Durban University of Technology.

User question: "

/-- The instructional template after the `req.prompt` interpolation
point. -/
def PROMPT_TEMPLATE_TAIL : String := "

Your task is to analyze the user's question and decide whether to give the greeting or a specific answer from the context.
"

/-- `enhanced_prompt` (app.py lines 142-166): the user prompt wrapped
in the fixed instructional template with the embedded context facts. -/
def enhanced_prompt (req : OllamaRequest) : String :=
  PROMPT_TEMPLATE_HEAD ++ WEBSITE_CONTEXT ++ PROMPT_TEMPLATE_MID ++
    pyInterpolate req.prompt ++ PROMPT_TEMPLATE_TAIL

/-- Payload construction (app.py lines 168-176): `model` always;
`messages` verbatim when truthy, else the enhanced prompt;
`max_tokens` appended only when truthy. -/
def buildPayload (req : OllamaRequest) : List (String × Json) :=
  let payload := [("model", optStrJson req.model)]
  let payload :=
    if pyTruthyList req.messages then
      payload ++ [("messages", msgsJson (req.messages.getD []))]
    else
      payload ++ [("prompt", Json.str (enhanced_prompt req))]
  if pyTruthyInt req.max_tokens then
    payload ++ [("max_tokens", Json.num (req.max_tokens.getD 0))]
  else
    payload

/-- First phase of the handler (app.py lines 138-176): either the
request is rejected with a 400 before any outbound call, or a payload
is built for the outbound call. -/
inductive HandlerAction where
  | reject (status : Nat) (detail : Json) : HandlerAction
  | callUpstream (payload : List (String × Json)) : HandlerAction

/-- app.py lines 138-176: the 400 guard, then payload construction. -/
def handlerAction (req : OllamaRequest) : HandlerAction :=
  if !pyTruthyStr req.prompt && !pyTruthyList req.messages then
    .reject 400 (Json.str "Provide a 'prompt' string or 'messages' list.")
  else
    .callUpstream (buildPayload req)

/-- What the HTTP caller of `/api/ollama` observes: an error status
with a detail payload, or a 200 with a JSON body. -/
inductive HandlerOutcome where
  | httpError (status : Nat) (detail : Json) : HandlerOutcome
  | success (body : Json) : HandlerOutcome

/-- `forward_to_ollama` (app.py lines 129-180): reject or build the
payload, delegate to `call_ollama`, and wrap a successful result as
`{"ok": true, "ollama": result}` (line 180). -/
def forward_to_ollama (url : String) (req : OllamaRequest)
    (outcome : UpstreamOutcome) : HandlerOutcome :=
  match handlerAction req with
  | .reject s d => .httpError s d
  | .callUpstream payload =>
    match call_ollama url payload outcome with
    | .err e => .httpError e.status e.detail
    | .ok result => .success (Json.obj [("ok", Json.bool true), ("ollama", result)])

/-- Keys of a payload association list, in insertion order. -/
def keysOf (kvs : List (String × Json)) : List String :=
  kvs.map Prod.fst

/-! ## Specification-side views of the NDJSON aggregation loop -/

/-- The string a given line contributes to the aggregated text:
its parse, fed to `fieldContribution`. -/
def lineContribution (line : String) : Option String :=
  (parseJson line).bind fieldContribution

/-- The last successfully parsed value among the given lines. -/
def lastParsed (lines : List String) : Option Json :=
  (lines.filterMap parseJson).getLast?

/-- `getLast?` of a cons, as a match on the tail. -/
theorem getLast?_cons_eq {α : Type} (a : α) (l : List α) :
    (a :: l).getLast? =
      (match l.getLast? with
       | some v => some v
       | none => some a) := by
  induction l generalizing a with
  | nil => rfl
  | cons b t ih =>
    rw [List.getLast?_cons_cons, ih b]
    cases t.getLast? <;> simp

/-- The accumulated strings of the collection loop are the in-order
contributions of the lines that parse. -/
theorem collect_foldl_collected (lines : List String) (init : CollectSt) :
    (lines.foldl collectStep init).collected =
      init.collected ++ lines.filterMap lineContribution := by
  induction lines generalizing init with
  | nil => simp
  | cons l rest ih =>
    rw [List.foldl_cons, ih]
    rcases hp : parseJson l with _ | obj
    · have hc : lineContribution l = none := by
        unfold lineContribution; rw [hp]; rfl
      rw [List.filterMap_cons_none hc]
      simp [collectStep, hp]
    · have hc : lineContribution l = fieldContribution obj := by
        unfold lineContribution; rw [hp]; rfl
      rcases hf : fieldContribution obj with _ | s
      · rw [List.filterMap_cons_none (hc.trans hf)]
        simp [collectStep, hp, hf]
      · rw [List.filterMap_cons_some (hc.trans hf)]
        simp [collectStep, hp, hf]

/-- The tracked `last_obj` of the collection loop is the last parsed
value among the lines, falling back to the initial value. -/
theorem collect_foldl_last (lines : List String) (init : CollectSt) :
    (lines.foldl collectStep init).last_obj =
      (match lastParsed lines with
       | some v => some v
       | none => init.last_obj) := by
  induction lines generalizing init with
  | nil => rfl
  | cons l rest ih =>
    rw [List.foldl_cons, ih]
    unfold lastParsed
    rcases hp : parseJson l with _ | obj
    · rw [List.filterMap_cons_none hp]
      rcases hl : (rest.filterMap parseJson).getLast? with _ | v
      · simp [collectStep, hp]
      · simp
    · rw [List.filterMap_cons_some hp, getLast?_cons_eq]
      rcases hl : (rest.filterMap parseJson).getLast? with _ | v
      · rcases hf : fieldContribution obj with _ | s <;> simp [collectStep, hp, hf]
      · simp

/-- Characterization of the multi-line branch of the normalizer
(app.py lines 100-119). -/
theorem normalizeBody_multiline (body : String)
    (h : 1 < (procLines body).length) :
    normalizeBody body =
      Json.obj
        ([("text", Json.str (String.join ((procLines body).filterMap lineContribution))),
          ("raw_lines", Json.arr ((procLines body).map Json.str))] ++
         (match lastParsed (procLines body) with
          | some v => if v.truthy then [("last", v)] else []
          | none => [])) := by
  unfold normalizeBody
  rw [if_pos h]
  simp only [collect_foldl_collected, collect_foldl_last]
  rcases hl : lastParsed (procLines body) with _ | v
  · simp
  · rcases ht : v.truthy with _ | _ <;> simp [ht]

/-! ## Claim theorems -/

/-- C1 counterexample: on a successful call the handler's 200 body has
no key named `result`; the normalized result is under `ollama`
(app.py line 180), refuting the claim that it appears under `result`. -/
theorem C1_counterexample :
    forward_to_ollama "http://localhost:11434/api/generate"
        { prompt := some "Hello" } (.response 200 "\x7b\"response\":\"hi\"\x7d") =
      .success (Json.obj [("ok", Json.bool true),
        ("ollama", Json.obj [("response", Json.str "hi")])]) ∧
    Json.lookupKey (Json.obj [("ok", Json.bool true),
        ("ollama", Json.obj [("response", Json.str "hi")])]) "result" = none ∧
    Json.lookupKey (Json.obj [("ok", Json.bool true),
        ("ollama", Json.obj [("response", Json.str "hi")])]) "ollama" =
      some (Json.obj [("response", Json.str "hi")]) :=
  ⟨rfl, rfl, rfl⟩

/-- C1 (amended): for every accepted request, when the outbound call
succeeds the handler returns `{ok: true, ollama: <NormalizedResult>}`:
the normalized result appears under the key `ollama`. -/
theorem C1_success_shape (url : String) (req : OllamaRequest)
    (outcome : UpstreamOutcome) (result : Json)
    (hacc : (pyTruthyStr req.prompt || pyTruthyList req.messages) = true)
    (hok : call_ollama url (buildPayload req) outcome = .ok result) :
    forward_to_ollama url req outcome =
      .success (Json.obj [("ok", Json.bool true), ("ollama", result)]) := by
  cases hp : pyTruthyStr req.prompt <;> cases hm : pyTruthyList req.messages <;>
    rw [hp, hm] at hacc <;>
    simp_all [forward_to_ollama, handlerAction, hp, hm, hok]

/-- C1 witness: a concrete accepted request and 200 upstream response. -/
theorem C1_witness :
    forward_to_ollama "u" { prompt := some "Hello" } (.response 200 "\x7b\x7d") =
      .success (Json.obj [("ok", Json.bool true), ("ollama", Json.obj [])]) :=
  C1_success_shape "u" { prompt := some "Hello" } (.response 200 "\x7b\x7d")
    (Json.obj []) rfl rfl

/-- C2 counterexample: upstream status 201 is an HTTP success status,
yet `call_ollama` fails with a 502 instead of normalizing the body
(app.py line 89 tests `!= 200`, not general success). -/
theorem C2_counterexample :
    call_ollama "u" [] (.response 201 "\x7b\"a\":1\x7d") =
      .err ⟨502, Json.obj [("ollama_response", Json.obj [("a", Json.num 1)])]⟩ ∧
    call_ollama "u" [] (.response 201 "\x7b\"a\":1\x7d") ≠
      .ok (normalizeBody "\x7b\"a\":1\x7d") := by
  refine ⟨rfl, fun h => ?_⟩
  exact CallResult.noConfusion h

/-- C2 (amended): normalization proceeds exactly on status 200; every
other status (including other success statuses) yields a 502 whose
detail embeds the body parsed as JSON when possible, and otherwise the
raw status code and text. -/
theorem C2_status_gate (url : String) (p : List (String × Json))
    (status : Nat) (body : String) :
    (status = 200 →
      call_ollama url p (.response status body) = .ok (normalizeBody body)) ∧
    (status ≠ 200 → ∀ d, parseJson body = some d →
      call_ollama url p (.response status body) =
        .err ⟨502, Json.obj [("ollama_response", d)]⟩) ∧
    (status ≠ 200 → parseJson body = none →
      call_ollama url p (.response status body) =
        .err ⟨502, Json.obj [("ollama_response",
          Json.obj [("status_code", Json.num (Int.ofNat status)),
                    ("text", Json.str body)])]⟩) := by
  refine ⟨?_, ?_, ?_⟩
  · intro h; subst h; simp [call_ollama]
  · intro h d hd; simp [call_ollama, h, errorData, hd]
  · intro h hd; simp [call_ollama, h, errorData, hd]

/-- C2 witness: status 404 with a non-JSON body embeds the raw status
code and text. -/
theorem C2_witness :
    call_ollama "u" [] (.response 404 "oops") =
      .err ⟨502, Json.obj [("ollama_response",
        Json.obj [("status_code", Json.num 404), ("text", Json.str "oops")])]⟩ :=
  (C2_status_gate "u" [] 404 "oops").2.2 (by decide) rfl

/-- C3 counterexample: in the body `{"response":"Hel"}\n0` the line `0`
is the last successfully parsed value, yet the normalized result omits
the `last` key because `0` is falsy (app.py line 117 `if last_obj:`),
refuting the claim that `last` is always the last parsed object. -/
theorem C3_counterexample :
    parseJson "0" = some (Json.num 0) ∧
    lastParsed (procLines "\x7b\"response\":\"Hel\"\x7d\n0") = some (Json.num 0) ∧
    Json.lookupKey (normalizeBody "\x7b\"response\":\"Hel\"\x7d\n0") "last" = none :=
  ⟨rfl, rfl, rfl⟩

/-- C3 (amended): for a body with more than one non-empty trimmed line,
the result is an object whose `text` concatenates, in line order with
no separator, the contributions of the lines that parse (non-empty
`response` field, else non-empty `text` field), whose `raw_lines` lists
the non-empty trimmed lines, and whose `last` is the last successfully
parsed value when that value is truthy, and is omitted otherwise. -/
theorem C3_multiline_normalization (body : String)
    (h : 1 < (procLines body).length) :
    normalizeBody body =
      Json.obj
        ([("text", Json.str (String.join ((procLines body).filterMap lineContribution))),
          ("raw_lines", Json.arr ((procLines body).map Json.str))] ++
         (match lastParsed (procLines body) with
          | some v => if v.truthy then [("last", v)] else []
          | none => [])) :=
  normalizeBody_multiline body h

/-- C3 witness: the spec's own example, `{"response":"Hel"}` then
`{"response":"lo"}`, yields text `"Hello"` and the expected `last`. -/
theorem C3_witness :
    normalizeBody "\x7b\"response\":\"Hel\"\x7d\n\x7b\"response\":\"lo\"\x7d" =
      Json.obj [("text", Json.str "Hello"),
        ("raw_lines", Json.arr [Json.str "\x7b\"response\":\"Hel\"\x7d",
                                Json.str "\x7b\"response\":\"lo\"\x7d"]),
        ("last", Json.obj [("response", Json.str "lo")])] :=
  (C3_multiline_normalization "\x7b\"response\":\"Hel\"\x7d\n\x7b\"response\":\"lo\"\x7d"
    (by decide)).trans rfl

/-- C4: with at most one non-empty trimmed line, a body that parses as
one JSON document is returned unchanged, and a body that does not
parse yields `{"text": body}` (app.py lines 121-126). -/
theorem C4_single_line_passthrough (body : String)
    (h : (procLines body).length ≤ 1) :
    (∀ p, parseJson body = some p → normalizeBody body = p) ∧
    (parseJson body = none → normalizeBody body = Json.obj [("text", Json.str body)]) := by
  have hnot : ¬ (1 < (procLines body).length) := by omega
  constructor
  · intro p hp
    simp [normalizeBody, hnot, hp]
  · intro hp
    simp [normalizeBody, hnot, hp]

/-- C4 witness: the spec's example `plain text`. -/
theorem C4_witness :
    normalizeBody "plain text" = Json.obj [("text", Json.str "plain text")] :=
  (C4_single_line_passthrough "plain text" (by decide)).2 rfl

/-- C5: when both `prompt` and `messages` are absent or empty, the
handler rejects with a 400 before any payload is built, and the HTTP
outcome is that 400 regardless of the upstream outcome — no outbound
call is made (app.py lines 138-139). -/
theorem C5_missing_input_rejected (url : String) (req : OllamaRequest)
    (outcome : UpstreamOutcome)
    (hp : pyTruthyStr req.prompt = false)
    (hm : pyTruthyList req.messages = false) :
    handlerAction req =
      .reject 400 (Json.str "Provide a 'prompt' string or 'messages' list.") ∧
    forward_to_ollama url req outcome =
      .httpError 400 (Json.str "Provide a 'prompt' string or 'messages' list.") := by
  have h1 : handlerAction req =
      .reject 400 (Json.str "Provide a 'prompt' string or 'messages' list.") := by
    simp [handlerAction, hp, hm]
  exact ⟨h1, by simp [forward_to_ollama, h1]⟩

/-- C5 witness: the all-defaults request (no prompt, no messages). -/
theorem C5_witness :
    forward_to_ollama "u" {} .connectError =
      .httpError 400 (Json.str "Provide a 'prompt' string or 'messages' list.") :=
  (C5_missing_input_rejected "u" {} .connectError rfl rfl).2

/-- C6 counterexample: a request supplying `messages = []` together
with a prompt is accepted, but the payload is built in prompt mode
(`if req.messages:` is a truthiness test, app.py line 170): `messages`
is not attached even though it was supplied. -/
theorem C6_counterexample :
    keysOf (buildPayload { prompt := some "hi", messages := some [] }) =
      ["model", "prompt", "max_tokens"] ∧
    List.lookup "messages"
      (buildPayload { prompt := some "hi", messages := some [] }) = none :=
  ⟨rfl, rfl⟩

/-- C6 (amended): for every accepted request, when `messages` is
supplied and non-empty it is attached verbatim and `prompt` is
omitted; otherwise the enhanced (template-wrapped) prompt is attached
and `messages` is omitted; `model` is copied through; `max_tokens` is
attached exactly when provided and truthy; and wrapping in the fixed
template occurs only in prompt mode. -/
theorem C6_payload_shape (req : OllamaRequest)
    (_hacc : (pyTruthyStr req.prompt || pyTruthyList req.messages) = true) :
    (∀ ms, req.messages = some ms → ms ≠ [] →
      List.lookup "messages" (buildPayload req) = some (msgsJson ms) ∧
      List.lookup "prompt" (buildPayload req) = none) ∧
    (pyTruthyList req.messages = false →
      List.lookup "prompt" (buildPayload req) =
        some (Json.str (enhanced_prompt req)) ∧
      List.lookup "messages" (buildPayload req) = none) ∧
    List.lookup "model" (buildPayload req) = some (optStrJson req.model) ∧
    List.lookup "max_tokens" (buildPayload req) =
      (if pyTruthyInt req.max_tokens then some (Json.num (req.max_tokens.getD 0))
       else none) ∧
    (∀ s, req.prompt = some s →
      enhanced_prompt req =
        PROMPT_TEMPLATE_HEAD ++ WEBSITE_CONTEXT ++ PROMPT_TEMPLATE_MID ++ s ++
          PROMPT_TEMPLATE_TAIL) := by
  refine ⟨?_, ?_, ?_, ?_, ?_⟩
  · intro ms hm hne
    have hms : pyTruthyList (some ms) = true := by
      simp [pyTruthyList, hne]
    cases hmt : pyTruthyInt req.max_tokens <;>
      simp [buildPayload, hm, hms, hmt, List.lookup]
  · intro hms
    cases hmt : pyTruthyInt req.max_tokens <;>
      simp [buildPayload, hms, hmt, List.lookup]
  · cases hms : pyTruthyList req.messages <;>
      cases hmt : pyTruthyInt req.max_tokens <;>
      simp [buildPayload, hms, hmt, List.lookup]
  · cases hms : pyTruthyList req.messages <;>
      cases hmt : pyTruthyInt req.max_tokens <;>
      simp [buildPayload, hms, hmt, List.lookup]
  · intro s hs
    simp [enhanced_prompt, pyInterpolate, hs]

/-- C6 witness: a concrete chat-mode request with one message. -/
theorem C6_witness :
    List.lookup "messages"
      (buildPayload { messages := some [[("role", Json.str "user"),
                                         ("content", Json.str "Hi")]] }) =
      some (msgsJson [[("role", Json.str "user"), ("content", Json.str "Hi")]]) ∧
    List.lookup "prompt"
      (buildPayload { messages := some [[("role", Json.str "user"),
                                         ("content", Json.str "Hi")]] }) = none :=
  (C6_payload_shape
      { messages := some [[("role", Json.str "user"), ("content", Json.str "Hi")]] }
      rfl).1
    [[("role", Json.str "user"), ("content", Json.str "Hi")]] rfl
    (List.cons_ne_nil _ _)

/-- C7: a connection failure yields a 503 whose detail string contains
the configured upstream URL (app.py lines 84-85). -/
theorem C7_connect_error_503 (url : String) (p : List (String × Json)) :
    call_ollama url p .connectError =
      .err ⟨503, Json.str
        ("Cannot connect to Ollama at " ++ url ++ ". Is Ollama running?")⟩ ∧
    ∃ before after,
      "Cannot connect to Ollama at " ++ url ++ ". Is Ollama running?" =
        before ++ url ++ after :=
  ⟨rfl, "Cannot connect to Ollama at ", ". Is Ollama running?", rfl⟩

/-- C8: a line that fails to parse is skipped by the collection loop —
removing it does not change the loop state — and a non-parsing body
with at most one non-empty trimmed line degrades to `{"text": body}`;
the normalizer is a total function of the body. -/
theorem C8_malformed_lines_skipped
    (pre post : List String) (bad : String) (init : CollectSt)
    (hbad : parseJson bad = none) :
    (pre ++ bad :: post).foldl collectStep init =
      (pre ++ post).foldl collectStep init ∧
    (∀ body, parseJson body = none → (procLines body).length ≤ 1 →
      normalizeBody body = Json.obj [("text", Json.str body)]) := by
  constructor
  · rw [List.foldl_append, List.foldl_append, List.foldl_cons]
    have hstep : collectStep (pre.foldl collectStep init) bad =
        pre.foldl collectStep init := by
      simp [collectStep, hbad]
    rw [hstep]
  · intro body hp hlen
    have hnot : ¬ (1 < (procLines body).length) := by omega
    simp [normalizeBody, hnot, hp]

/-- C8 witness: a malformed line between two valid NDJSON lines is
skipped by the loop. -/
theorem C8_witness :
    (["\x7b\"response\":\"a\"\x7d", "not json", "\x7b\"response\":\"b\"\x7d"].foldl
        collectStep ⟨[], none⟩ : CollectSt) =
      (["\x7b\"response\":\"a\"\x7d", "\x7b\"response\":\"b\"\x7d"].foldl
        collectStep ⟨[], none⟩ : CollectSt) :=
  (C8_malformed_lines_skipped ["\x7b\"response\":\"a\"\x7d"]
    ["\x7b\"response\":\"b\"\x7d"] "not json" ⟨[], none⟩ rfl).1

/-- C9: the `temperature` field is accepted by the request model but
never forwarded: the payload has no `temperature` key, and the payload
does not depend on the supplied temperature at all. -/
theorem C9_temperature_not_forwarded (req : OllamaRequest) (t : Option Int)
    (_hacc : (pyTruthyStr req.prompt || pyTruthyList req.messages) = true) :
    List.lookup "temperature" (buildPayload req) = none ∧
    buildPayload { req with temperature := t } = buildPayload req := by
  constructor
  · cases hms : pyTruthyList req.messages <;>
      cases hmt : pyTruthyInt req.max_tokens <;>
      simp [buildPayload, hms, hmt, List.lookup]
  · rfl

/-- C9 witness: a concrete request carrying a temperature. -/
theorem C9_witness :
    List.lookup "temperature"
      (buildPayload { prompt := some "hi", temperature := some 2 }) = none :=
  (C9_temperature_not_forwarded { prompt := some "hi", temperature := some 2 }
    (some 2) rfl).1

/-- C10: in the multi-line case the `last` key is present exactly when
the last successfully parsed value is truthy (empty objects, `0`, `""`,
`false`, `null` are omitted even though a line parsed), and its value
is that parsed value, dict or not. -/
theorem C10_last_key_truthiness (body : String)
    (h : 1 < (procLines body).length) :
    Json.lookupKey (normalizeBody body) "last" =
      (match lastParsed (procLines body) with
       | some v => if v.truthy then some v else none
       | none => none) := by
  rw [normalizeBody_multiline body h]
  rcases hl : lastParsed (procLines body) with _ | v
  · simp [Json.lookupKey, List.lookup]
  · rcases ht : v.truthy with _ | _ <;>
      simp [Json.lookupKey, List.lookup, ht]

/-- C10 witness: the body `1\n2` parses line-wise to numbers; `last`
is the non-dict value `2`. -/
theorem C10_witness :
    Json.lookupKey (normalizeBody "1\n2") "last" = some (Json.num 2) :=
  (C10_last_key_truthiness "1\n2" (by decide)).trans rfl
